import Mathlib

/-!
Verification development for the incident-radiation application.

The definitions below are a shallow embedding of the radiation core in
`app/simulation.py` and of the cache-invalidation logic in `app/inputs.py`.
Machine floating-point arithmetic is modelled by exact rationals, and the
angle arithmetic of the direction-vector rotation by exact reals.  The
external Radiance executables (gendaymtx, rcontrib) are not part of this
repository; where their behaviour matters they appear either as function
parameters of the embedding or as definitions explicitly modelled from the
specification.
-/

namespace IncidentRad

/-- Hourly weather record, as read from an EPW file: direct normal
irradiance, diffuse horizontal irradiance and dry-bulb temperature.
Embeds the triple iterated by `split_for_benefit` in `app/simulation.py`. -/
structure HourRec where
  dir : ℚ
  dif : ℚ
  temp : ℚ
deriving DecidableEq, Repr

/-- Modelled from the spec: the Tregenza per-row patch counts
(`view_sphere.TREGENZA_PATCHES_PER_ROW`), a fixed table of the ladybug
library that is not part of this repository.  The spec fixes the low
density at 145 patches arranged in rows with known per-row counts. -/
def TREGENZA_PATCHES_PER_ROW : List ℕ := [30, 30, 24, 24, 18, 12, 6]

/-- Modelled from the spec: the Reinhart per-row patch counts
(`view_sphere.REINHART_PATCHES_PER_ROW`), a fixed table of the ladybug
library that is not part of this repository. -/
def REINHART_PATCHES_PER_ROW : List ℕ :=
  [60, 60, 60, 60, 48, 48, 48, 48, 36, 36, 24, 24, 12, 12]

/-- Embeds the `PATCHES_PER_ROW` constant of `app/simulation.py`: the
library row table with one extra top patch appended, keyed by density. -/
def PATCHES_PER_ROW (density : ℕ) : List ℕ :=
  if density = 2 then REINHART_PATCHES_PER_ROW ++ [1]
  else TREGENZA_PATCHES_PER_ROW ++ [1]

/-- Embeds `broadband_radiation` of `app/simulation.py` on an already-split
RGB triple: broadband weighting of the three bands, multiplied by the
per-row solid-angle coefficient and the Wea duration.  The per-row
coefficient table lives in the ladybug library, so the coefficient is a
parameter here. -/
def broadband_radiation (rgb : ℚ × ℚ × ℚ) (coeff : ℚ) (dur : ℚ) : ℚ :=
  (265074126 / 1000000000 * rgb.1 + 670114631 / 1000000000 * rgb.2.1 +
    64811243 / 1000000000 * rgb.2.2) * coeff * dur

/-- Embeds the row loop of `parse_mtx_data` in `app/simulation.py`: walk
the per-row patch counts, slice that many RGB lines off the input and
convert each with the coefficient of the current row. -/
def rowLoop (coeff : ℕ → ℚ) (dur : ℚ) : ℕ → List ℕ → List (ℚ × ℚ × ℚ) → List ℚ
  | _, [], _ => []
  | i, cnt :: rest, lines =>
      (lines.take cnt).map (fun rgb => broadband_radiation rgb (coeff i) dur) ++
        rowLoop coeff dur (i + 1) rest (lines.drop cnt)

/-- Embeds `parse_mtx_data` of `app/simulation.py` after the byte-string
splitting (header removal is plain text processing on the gendaymtx
output): convert the RGB patch lines to one broadband radiation value per
patch, row by row. -/
def parse_mtx_data (coeff : ℕ → ℚ) (dur : ℚ) (density : ℕ)
    (patch_lines : List (ℚ × ℚ × ℚ)) : List ℚ :=
  rowLoop coeff dur 0 (PATCHES_PER_ROW density) patch_lines

/-- Embeds one iteration of the loop of `split_for_benefit` in
`app/simulation.py`: route the irradiance of one hour to the heating
series (first pair), the cooling series (second pair), or neither. -/
def splitHour (bal : ℚ) (r : HourRec) : (ℚ × ℚ) × (ℚ × ℚ) :=
  if r.temp < bal - 2 then ((r.dir, r.dif), (0, 0))
  else if bal + 2 < r.temp then ((0, 0), (r.dir, r.dif))
  else ((0, 0), (0, 0))

/-- The heating Wea built by `split_for_benefit`: direct and diffuse
series of the hours routed to the heating side. -/
def heatingWea (recs : List HourRec) (bal : ℚ) : List ℚ × List ℚ :=
  (recs.map (fun r => ((splitHour bal r).1).1),
   recs.map (fun r => ((splitHour bal r).1).2))

/-- The cooling Wea built by `split_for_benefit`: direct and diffuse
series of the hours routed to the cooling side. -/
def coolingWea (recs : List HourRec) (bal : ℚ) : List ℚ × List ℚ :=
  (recs.map (fun r => ((splitHour bal r).2).1),
   recs.map (fun r => ((splitHour bal r).2).2))

/-- The unsplit Wea: the direct and diffuse series as read from the file. -/
def weaOf (recs : List HourRec) : List ℚ × List ℚ :=
  (recs.map (fun r => r.dir), recs.map (fun r => r.dif))

/-- Embeds the data path of `compute_sky_matrix` in `app/simulation.py`.
`G` stands for `run_gendaymtx`, the invocation of the external Radiance
gendaymtx executable on a Wea (direct series, diffuse series), returning
the per-patch direct and diffuse radiation arrays; the executable is not
part of this repository, so it is a function parameter.  In benefit mode
the weather series is split around the balance temperature, both halves
are discretized, and the cooling-derived arrays are subtracted from the
heating-derived arrays element-wise. -/
def computeSkyMtxData (G : List ℚ × List ℚ → List ℚ × List ℚ)
    (recs : List HourRec) (use_benefit : Bool) (bal : ℚ) : List ℚ × List ℚ :=
  if use_benefit then
    let r1 := G (heatingWea recs bal)
    let r2 := G (coolingWea recs bal)
    (List.zipWith (· - ·) r1.1 r2.1, List.zipWith (· - ·) r1.2 r2.2)
  else G (weaOf recs)

/-- Embeds the `total_sky_rad` list of `run_simulation` in
`app/simulation.py`: element-wise sum of the direct and diffuse halves of
the cached sky matrix. -/
def totalSkyRad (mtx : List ℚ × List ℚ) : List ℚ :=
  List.zipWith (· + ·) mtx.1 mtx.2

/-- Embeds the `ground_value` expression of `run_simulation`: mean of the
sky-patch radiation times the ground reflectance. -/
def groundValue (total : List ℚ) (refl : ℚ) : ℚ :=
  (total.sum / (total.length : ℚ)) * refl

/-- Embeds the `all_rad` list of `run_simulation`: the sky-patch array
with the uniform ground value replicated once per sky patch appended. -/
def allRad (mtx : List ℚ × List ℚ) (refl : ℚ) : List ℚ :=
  totalSkyRad mtx ++ List.replicate (totalSkyRad mtx).length (groundValue (totalSkyRad mtx) refl)

/-- Embeds the final list comprehension of `run_simulation`: one weighted
sum of an intersection-matrix row against the combined sky/ground vector
per sensor point. -/
def radiationCombine (M : List (List ℚ)) (S : List ℚ) : List ℚ :=
  M.map (fun row => (List.zipWith (· * ·) row S).sum)

/-- Embeds the `high_res` selection of `run_simulation`: the density of
the intersection matrix is chosen from the length of the cached sky-patch
array, low exactly when that length is 145. -/
def highResFor (n : ℕ) : Bool :=
  if n = 145 then false else true

/-- The streamlit session-state fields that the radiation core and the
cache-invalidation handlers of `app/inputs.py` read or write.  `none`
plays the role of the Python `None` marker for a missing cached artifact. -/
structure SessionState where
  sky_matrix : Option (List ℚ × List ℚ)
  intersection_matrix : Option (List (List ℚ))
  radiation_values : Option (List ℚ)
  vtk_path : Option String
  ground_reflectance : ℚ
  north : ℚ
  override_min_max : Bool
  legend_min : ℚ
  legend_max : ℚ
  legend_seg_count : ℤ
deriving DecidableEq, Repr

/-- Embeds `new_sky_matrix` of `app/inputs.py`: reset the sky matrix, the
radiation values and the visualization path. -/
def new_sky_matrix (s : SessionState) : SessionState :=
  { s with sky_matrix := none, radiation_values := none, vtk_path := none }

/-- Embeds the ground-reflectance handler of `get_inputs` in
`app/inputs.py`: when the widget value differs from the stored one, store
it and call `new_sky_matrix`. -/
def updateGroundReflectance (g : ℚ) (s : SessionState) : SessionState :=
  if g ≠ s.ground_reflectance then new_sky_matrix { s with ground_reflectance := g }
  else s

/-- Embeds the north handler of `get_inputs` in `app/inputs.py`: when the
widget value differs, store it and reset the intersection matrix, the
radiation values and the visualization path. -/
def updateNorth (n : ℚ) (s : SessionState) : SessionState :=
  if n ≠ s.north then
    { s with north := n, intersection_matrix := none,
             radiation_values := none, vtk_path := none }
  else s

/-- Embeds the override-min-max handler of `get_inputs` in
`app/inputs.py`. -/
def updateOverrideMinMax (b : Bool) (s : SessionState) : SessionState :=
  if b ≠ s.override_min_max then new_sky_matrix { s with override_min_max := b }
  else s

/-- Embeds the legend-minimum handler of `get_inputs` in `app/inputs.py`. -/
def updateLegendMin (x : ℚ) (s : SessionState) : SessionState :=
  if x ≠ s.legend_min then new_sky_matrix { s with legend_min := x }
  else s

/-- Embeds the legend-maximum handler of `get_inputs` in `app/inputs.py`. -/
def updateLegendMax (x : ℚ) (s : SessionState) : SessionState :=
  if x ≠ s.legend_max then new_sky_matrix { s with legend_max := x }
  else s

/-- Embeds the legend-segment-count handler of `get_inputs` in
`app/inputs.py`. -/
def updateLegendSegCount (k : ℤ) (s : SessionState) : SessionState :=
  if k ≠ s.legend_seg_count then new_sky_matrix { s with legend_seg_count := k }
  else s

/-- Result of one invocation of the orchestrator: the session state after
the call, and whether the sky-matrix and intersection-matrix compute
functions ran during the call. -/
structure RunOutcome where
  state : SessionState
  skyComputed : Bool
  interComputed : Bool
deriving DecidableEq, Repr

/-- Step of `run_simulation` that fetches the sky matrix: reuse the cached
value when present, otherwise run the computation `cs`. -/
def skyStep (cs : List ℚ × List ℚ) :
    Option (List ℚ × List ℚ) → (List ℚ × List ℚ) × Bool
  | some m => (m, false)
  | none => (cs, true)

/-- Step of `run_simulation` that fetches the intersection matrix: reuse
the cached value when present, otherwise run the computation `ci` at the
chosen resolution. -/
def interStep (ci : Bool → List (List ℚ)) (hr : Bool) :
    Option (List (List ℚ)) → List (List ℚ) × Bool
  | some im => (im, false)
  | none => (ci hr, true)

/-- Embeds `run_simulation` of `app/simulation.py` as a state transformer.
`cs` stands for the result of `compute_sky_matrix` and `ci` for the result
of `compute_intersection_matrix` at a given resolution; both write their
result into the session state in the source, which the outcome flags
record here.  The function returns unchanged with nothing computed when
the sky file, the study mesh or the context geometry is missing, when the
radiation values are already cached, or when neither the automatic-rerun
box nor the compute button triggered a run. -/
def runSimulation (cs : List ℚ × List ℚ) (ci : Bool → List (List ℚ))
    (hasSkyFile hasMesh : Bool) (contextGeo : List Unit) (triggered : Bool)
    (s : SessionState) : RunOutcome :=
  if hasSkyFile = false ∨ hasMesh = false ∨ contextGeo = [] ∨
      s.radiation_values ≠ none then
    ⟨s, false, false⟩
  else if triggered = false then ⟨s, false, false⟩
  else
    let mp := skyStep cs s.sky_matrix
    let total := totalSkyRad mp.1
    let all_rad := allRad mp.1 s.ground_reflectance
    let ip := interStep ci (highResFor total.length) s.intersection_matrix
    let rad := radiationCombine ip.1 all_rad
    ⟨{ s with sky_matrix := some mp.1, intersection_matrix := some ip.1,
              radiation_values := some rad },
     mp.2, ip.2⟩

/-- A three-dimensional direction vector, with exact real components in
place of the machine floats of the ladybug geometry library. -/
def Vec3 : Type := ℝ × ℝ × ℝ

/-- Embeds `math.radians`: degrees to radians. -/
noncomputable def radians (n : ℝ) : ℝ := n * Real.pi / 180

/-- Embeds `Vector3D.rotate_xy` of the ladybug geometry library as used by
`compute_intersection_matrix`: counterclockwise rotation in the XY plane,
that is about the vertical axis. -/
noncomputable def rotate_xy (a : ℝ) (v : Vec3) : Vec3 :=
  (Real.cos a * v.1 - Real.sin a * v.2.1,
   Real.sin a * v.1 + Real.cos a * v.2.1,
   v.2.2)

/-- Embeds `Vector3D.reverse` as used for the ground-facing complement
vectors in `compute_intersection_matrix`. -/
def vecReverse (v : Vec3) : Vec3 := (-v.1, -v.2.1, -v.2.2)

/-- Embeds the direction-vector construction of
`compute_intersection_matrix` in `app/simulation.py`: start from the dome
vectors of the chosen density (`base`), rotate them about the vertical
axis when the north angle is nonzero, and append the reversed set as the
ground-facing complement. -/
noncomputable def simVectors (base : List Vec3) (north : ℝ) : List Vec3 :=
  let lb_vecs := if north ≠ 0 then base.map (rotate_xy (radians north)) else base
  lb_vecs ++ lb_vecs.map vecReverse

/-- Modelled from the spec: the external ray-tracing engine (the Radiance
rcontrib and rmtxop executables, which are not part of this repository)
returns one row of visibility weights per sensor point and one column per
direction vector. -/
def rcontribMatrix (weight : ℕ → ℕ → ℚ) (numPts numDirs : ℕ) : List (List ℚ) :=
  (List.range numPts).map (fun i => (List.range numDirs).map (weight i))

/-- Embeds the shape of `compute_intersection_matrix` in
`app/simulation.py`: the matrix loaded from the rcontrib output has one
row per sensor point and one column per entry of the direction-vector
list built from the dome vectors and the north angle. -/
noncomputable def compute_intersection_matrix (weight : ℕ → ℕ → ℚ)
    (numPts : ℕ) (base : List Vec3) (north : ℝ) : List (List ℚ) :=
  rcontribMatrix weight numPts (simVectors base north).length

/-! Helper lemmas. -/

theorem sum_zipWith_mul (xs ys : List ℚ) (h : xs.length = ys.length) :
    (List.zipWith (· * ·) xs ys).sum =
      ∑ j ∈ Finset.range ys.length, xs.getD j 0 * ys.getD j 0 := by
  induction xs generalizing ys with
  | nil =>
    cases ys with
    | nil => simp
    | cons y ys => simp at h
  | cons x xs ih =>
    cases ys with
    | nil => simp at h
    | cons y ys =>
      simp only [List.length_cons] at h
      simp only [List.zipWith_cons_cons, List.sum_cons, List.length_cons]
      rw [Finset.sum_range_succ']
      simp only [List.getD_cons_succ, List.getD_cons_zero]
      rw [ih ys (Nat.succ_injective h)]
      ring

theorem zipWith_getD (f : ℚ → ℚ → ℚ) (xs ys : List ℚ) (i : ℕ)
    (h1 : i < xs.length) (h2 : i < ys.length) :
    (List.zipWith f xs ys).getD i 0 = f (xs.getD i 0) (ys.getD i 0) := by
  induction xs generalizing ys i with
  | nil => simp at h1
  | cons x xs ih =>
    cases ys with
    | nil => simp at h2
    | cons y ys =>
      cases i with
      | zero => simp
      | succ i =>
        simp only [List.zipWith_cons_cons, List.getD_cons_succ]
        exact ih ys i (Nat.lt_of_succ_lt_succ h1) (Nat.lt_of_succ_lt_succ h2)

theorem zipWith_sub_self (l : List ℚ) :
    List.zipWith (· - ·) l l = List.replicate l.length 0 := by
  induction l with
  | nil => rfl
  | cons x xs ih => simp [ih, List.replicate_succ]

theorem rowLoop_length (coeff : ℕ → ℚ) (dur : ℚ) (i : ℕ) (rows : List ℕ)
    (lines : List (ℚ × ℚ × ℚ)) (h : rows.sum ≤ lines.length) :
    (rowLoop coeff dur i rows lines).length = rows.sum := by
  induction rows generalizing i lines with
  | nil => rfl
  | cons cnt rest ih =>
    simp only [List.sum_cons] at h
    have hcnt : cnt ≤ lines.length := le_trans (Nat.le_add_right _ _) h
    have hrest : rest.sum ≤ (lines.drop cnt).length := by
      rw [List.length_drop]
      omega
    simp only [rowLoop, List.length_append, List.length_map, List.length_take,
      ih (i + 1) (lines.drop cnt) hrest, List.sum_cons]
    omega

theorem rotate_xy_radians_360 (v : Vec3) : rotate_xy (radians 360) v = v := by
  have h : radians 360 = 2 * Real.pi := by
    simp only [radians]
    ring
  obtain ⟨x, y, z⟩ := v
  simp only [rotate_xy, h, Real.cos_two_pi, Real.sin_two_pi]
  refine Prod.ext ?_ (Prod.ext ?_ rfl) <;> simp

theorem replicate_mem_eq (n : ℕ) (a x : ℚ) (hx : x ∈ List.replicate n a) :
    x = a :=
  List.eq_of_mem_replicate hx

/-! Claim theorems. -/

/-- C1: for every cached intersection matrix M (rows = sensor points, each
row as long as the combined vector) and combined sky/ground radiation
vector S, the computed radiation result satisfies result i equals the sum
over j of M i j times S j for every sensor point i; and the orchestrator
has no side effect other than storing the cached artifacts: every other
session-state field is preserved by a run. -/
theorem c1_radiation_combiner (M : List (List ℚ)) (S : List ℚ)
    (hrow : ∀ row ∈ M, row.length = S.length) :
    (∀ i, i < M.length →
      (radiationCombine M S).getD i 0 =
        ∑ j ∈ Finset.range S.length, (M.getD i []).getD j 0 * S.getD j 0) ∧
    (∀ cs ci hSky hMesh cg trig s,
      ((runSimulation cs ci hSky hMesh cg trig s).state.ground_reflectance =
          s.ground_reflectance ∧
        (runSimulation cs ci hSky hMesh cg trig s).state.north = s.north) ∧
      ((runSimulation cs ci hSky hMesh cg trig s).state.override_min_max =
          s.override_min_max ∧
        (runSimulation cs ci hSky hMesh cg trig s).state.legend_min = s.legend_min ∧
        (runSimulation cs ci hSky hMesh cg trig s).state.legend_max = s.legend_max ∧
        (runSimulation cs ci hSky hMesh cg trig s).state.legend_seg_count =
          s.legend_seg_count)) := by
  constructor
  · intro i hi
    have hi2 : i <
        (List.map (fun row => (List.zipWith (· * ·) row S).sum) M).length := by
      simpa using hi
    rw [radiationCombine, List.getD_eq_getElem _ _ hi2, List.getElem_map,
      sum_zipWith_mul _ _ (hrow _ (List.getElem_mem hi)),
      List.getD_eq_getElem M [] hi]
  · intro cs ci hSky hMesh cg trig s
    simp only [runSimulation]
    split
    · exact ⟨⟨rfl, rfl⟩, rfl, rfl, rfl, rfl⟩
    · split
      · exact ⟨⟨rfl, rfl⟩, rfl, rfl, rfl, rfl⟩
      · exact ⟨⟨rfl, rfl⟩, rfl, rfl, rfl, rfl⟩

/-- Witness for C1 at a concrete one-row matrix and two-entry vector. -/
theorem c1_radiation_combiner_witness :
    (∀ row ∈ [[(2 : ℚ), 3]], row.length = [(10 : ℚ), 100].length) ∧
    (radiationCombine [[(2 : ℚ), 3]] [10, 100]).getD 0 0 =
      ∑ j ∈ Finset.range [(10 : ℚ), 100].length,
        ([[(2 : ℚ), 3]].getD 0 []).getD j 0 * [(10 : ℚ), 100].getD j 0 :=
  ⟨by decide,
    (c1_radiation_combiner [[(2 : ℚ), 3]] [10, 100] (by decide)).1 0 (by decide)⟩

/-- C2: the appended ground-patch half of the combined vector is the
uniform value mean of the sky-patch array times the ground reflectance,
replicated once per sky patch; with ground reflectance zero every
ground-patch value is exactly zero. -/
theorem c2_ground_patches (mtx : List ℚ × List ℚ) (refl : ℚ) :
    (allRad mtx refl).drop (totalSkyRad mtx).length =
      List.replicate (totalSkyRad mtx).length
        ((totalSkyRad mtx).sum / ((totalSkyRad mtx).length : ℚ) * refl) ∧
    (allRad mtx 0).drop (totalSkyRad mtx).length =
      List.replicate (totalSkyRad mtx).length 0 := by
  constructor
  · rw [allRad, List.drop_left, groundValue]
  · rw [allRad, List.drop_left, groundValue, mul_zero]

/-- A concrete session state used to instantiate theorems on concrete
inputs. -/
def baseState : SessionState :=
  { sky_matrix := none, intersection_matrix := none, radiation_values := none,
    vtk_path := none, ground_reflectance := 1 / 5, north := 0,
    override_min_max := false, legend_min := 0, legend_max := 100,
    legend_seg_count := 11 }

theorem run_early_of_cached (cs : List ℚ × List ℚ) (ci : Bool → List (List ℚ))
    (hSky hMesh : Bool) (cg : List Unit) (trig : Bool) (s : SessionState)
    (h : s.radiation_values ≠ none) :
    runSimulation cs ci hSky hMesh cg trig s = ⟨s, false, false⟩ := by
  simp only [runSimulation]
  rw [if_pos (Or.inr (Or.inr (Or.inr h)))]

/-- C3: in benefit mode every hour strictly colder than the balance
temperature minus two degrees sends its full irradiance to the heating
series and zero to the cooling series, every hour strictly warmer than the
balance temperature plus two degrees does the opposite, and dead-band
hours send zero to both; the final sky arrays are the heating-derived
arrays minus the cooling-derived arrays element-wise; and when every hour
lies in the dead band the benefit sky arrays are all zeros. -/
theorem c3_benefit_mode :
    (∀ (bal : ℚ) (r : HourRec), r.temp < bal - 2 →
      splitHour bal r = ((r.dir, r.dif), (0, 0))) ∧
    (∀ (bal : ℚ) (r : HourRec), bal + 2 < r.temp →
      splitHour bal r = ((0, 0), (r.dir, r.dif))) ∧
    (∀ (bal : ℚ) (r : HourRec), bal - 2 ≤ r.temp → r.temp ≤ bal + 2 →
      splitHour bal r = ((0, 0), (0, 0))) ∧
    (∀ (G : List ℚ × List ℚ → List ℚ × List ℚ) (recs : List HourRec)
        (bal : ℚ) (i : ℕ),
      (i < (computeSkyMtxData G recs true bal).1.length →
        (computeSkyMtxData G recs true bal).1.getD i 0 =
          (G (heatingWea recs bal)).1.getD i 0 -
            (G (coolingWea recs bal)).1.getD i 0) ∧
      (i < (computeSkyMtxData G recs true bal).2.length →
        (computeSkyMtxData G recs true bal).2.getD i 0 =
          (G (heatingWea recs bal)).2.getD i 0 -
            (G (coolingWea recs bal)).2.getD i 0)) ∧
    (∀ (G : List ℚ × List ℚ → List ℚ × List ℚ) (recs : List HourRec)
        (bal : ℚ),
      (∀ r ∈ recs, bal - 2 ≤ r.temp ∧ r.temp ≤ bal + 2) →
      (∀ x ∈ (computeSkyMtxData G recs true bal).1, x = 0) ∧
      (∀ x ∈ (computeSkyMtxData G recs true bal).2, x = 0)) := by
  refine ⟨?_, ?_, ?_, ?_, ?_⟩
  · intro bal r h
    simp [splitHour, h]
  · intro bal r h
    have h1 : ¬(r.temp < bal - 2) := by linarith
    simp [splitHour, h1, h]
  · intro bal r h1 h2
    have h3 : ¬(r.temp < bal - 2) := by linarith
    have h4 : ¬(bal + 2 < r.temp) := by linarith
    simp [splitHour, h3, h4]
  · intro G recs bal i
    constructor
    · intro hlen
      simp only [computeSkyMtxData, if_true] at hlen ⊢
      rw [List.length_zipWith] at hlen
      exact zipWith_getD _ _ _ i (lt_of_lt_of_le hlen (min_le_left _ _))
        (lt_of_lt_of_le hlen (min_le_right _ _))
    · intro hlen
      simp only [computeSkyMtxData, if_true] at hlen ⊢
      rw [List.length_zipWith] at hlen
      exact zipWith_getD _ _ _ i (lt_of_lt_of_le hlen (min_le_left _ _))
        (lt_of_lt_of_le hlen (min_le_right _ _))
  · intro G recs bal hband
    have hsplit : ∀ r ∈ recs, splitHour bal r = ((0, 0), (0, 0)) := by
      intro r hr
      have h3 : ¬(r.temp < bal - 2) := by linarith [(hband r hr).1]
      have h4 : ¬(bal + 2 < r.temp) := by linarith [(hband r hr).2]
      simp [splitHour, h3, h4]
    have hw : heatingWea recs bal = coolingWea recs bal := by
      simp only [heatingWea, coolingWea]
      refine Prod.ext ?_ ?_ <;>
        · apply List.map_congr_left
          intro r hr
          rw [hsplit r hr]
    constructor <;> intro x hx <;>
      · simp only [computeSkyMtxData, if_true, hw] at hx
        exact List.eq_of_mem_replicate (zipWith_sub_self _ ▸ hx)

theorem getD_mem (l : List ℚ) (h : 0 < l.length) : l.getD 0 0 ∈ l := by
  cases l with
  | nil => simp at h
  | cons x xs => simp

/-- Witness for C3: a cold hour, a warm hour, a dead-band hour, the
element-wise subtraction at index zero, and the all-zero conclusion for a
dead-band-only series, all at concrete inputs with the discretizer taken
as the identity function. -/
theorem c3_benefit_mode_witness :
    ((10 : ℚ) < 16 - 2 ∧ splitHour 16 ⟨5, 6, 10⟩ = ((5, 6), (0, 0))) ∧
    ((16 : ℚ) + 2 < 20 ∧ splitHour 16 ⟨5, 6, 20⟩ = ((0, 0), (5, 6))) ∧
    ((16 : ℚ) - 2 ≤ 16 ∧ (16 : ℚ) ≤ 16 + 2 ∧
      splitHour 16 ⟨5, 6, 16⟩ = ((0, 0), (0, 0))) ∧
    (computeSkyMtxData id [⟨1, 2, 16⟩] true 16).1.getD 0 0 =
      (id (heatingWea [⟨1, 2, 16⟩] 16) : List ℚ × List ℚ).1.getD 0 0 -
        (id (coolingWea [⟨1, 2, 16⟩] 16) : List ℚ × List ℚ).1.getD 0 0 ∧
    (computeSkyMtxData id [⟨1, 2, 16⟩] true 16).1.getD 0 0 = 0 :=
  ⟨⟨by norm_num, c3_benefit_mode.1 16 ⟨5, 6, 10⟩ (by norm_num)⟩,
   ⟨by norm_num, c3_benefit_mode.2.1 16 ⟨5, 6, 20⟩ (by norm_num)⟩,
   ⟨by norm_num, by norm_num,
     c3_benefit_mode.2.2.1 16 ⟨5, 6, 16⟩ (by norm_num) (by norm_num)⟩,
   (c3_benefit_mode.2.2.2.1 id [⟨1, 2, 16⟩] 16 0).1
     (by simp [computeSkyMtxData, heatingWea, coolingWea]),
   (c3_benefit_mode.2.2.2.2 id [⟨1, 2, 16⟩] 16
       (by rintro r hr; rw [List.mem_singleton] at hr; subst hr
           constructor <;> norm_num)).1 _
     (getD_mem _ (by simp [computeSkyMtxData, heatingWea, coolingWea]))⟩

/-- C4: invoking the orchestrator a second time on the state produced by a
first invocation changes nothing and computes nothing; a run that finds
the radiation values cached returns the state untouched with no compute
call; a run that finds the sky matrix cached does not call the sky
computation and keeps the cached value; a run that finds the intersection
matrix cached does not call the visibility computation and keeps the
cached value. -/
theorem c4_cache_reuse :
    (∀ cs ci hSky hMesh cg trig s,
      runSimulation cs ci hSky hMesh cg trig
          ((runSimulation cs ci hSky hMesh cg trig s).state) =
        ⟨(runSimulation cs ci hSky hMesh cg trig s).state, false, false⟩) ∧
    (∀ cs ci hSky hMesh cg trig s r, s.radiation_values = some r →
      runSimulation cs ci hSky hMesh cg trig s = ⟨s, false, false⟩) ∧
    (∀ cs ci hSky hMesh cg trig s m, s.sky_matrix = some m →
      (runSimulation cs ci hSky hMesh cg trig s).skyComputed = false ∧
      (runSimulation cs ci hSky hMesh cg trig s).state.sky_matrix = some m) ∧
    (∀ cs ci hSky hMesh cg trig s im, s.intersection_matrix = some im →
      (runSimulation cs ci hSky hMesh cg trig s).interComputed = false ∧
      (runSimulation cs ci hSky hMesh cg trig s).state.intersection_matrix =
        some im) := by
  refine ⟨?_, ?_, ?_, ?_⟩
  · intro cs ci hSky hMesh cg trig s
    by_cases hg : hSky = false ∨ hMesh = false ∨ cg = [] ∨
        s.radiation_values ≠ none
    · have h1 : runSimulation cs ci hSky hMesh cg trig s = ⟨s, false, false⟩ := by
        simp only [runSimulation]
        rw [if_pos hg]
      rw [h1]
      exact h1
    · by_cases ht : trig = false
      · have h1 : runSimulation cs ci hSky hMesh cg trig s = ⟨s, false, false⟩ := by
          simp only [runSimulation]
          rw [if_neg hg, if_pos ht]
        rw [h1]
        exact h1
      · have h2 : (runSimulation cs ci hSky hMesh cg trig s).state.radiation_values
            ≠ none := by
          simp only [runSimulation]
          rw [if_neg hg, if_neg ht]
          simp
        exact run_early_of_cached _ _ _ _ _ _ _ h2
  · intro cs ci hSky hMesh cg trig s r h
    exact run_early_of_cached _ _ _ _ _ _ _ (by rw [h]; exact Option.some_ne_none r)
  · intro cs ci hSky hMesh cg trig s m h
    simp only [runSimulation]
    split
    · exact ⟨rfl, h⟩
    · split
      · exact ⟨rfl, h⟩
      · rw [h]
        exact ⟨rfl, rfl⟩
  · intro cs ci hSky hMesh cg trig s im h
    simp only [runSimulation]
    split
    · exact ⟨rfl, h⟩
    · split
      · exact ⟨rfl, h⟩
      · rw [h]
        exact ⟨rfl, rfl⟩

/-- Witness for C4: the double-invocation equation at concrete inputs,
and the three cache-reuse conclusions at concrete cached states. -/
theorem c4_cache_reuse_witness :
    (runSimulation ([(1 : ℚ)], [(2 : ℚ)]) (fun _ => [[(3 : ℚ)]]) true true [()] true
        ((runSimulation ([(1 : ℚ)], [(2 : ℚ)]) (fun _ => [[(3 : ℚ)]]) true true [()]
            true baseState).state) =
      ⟨(runSimulation ([(1 : ℚ)], [(2 : ℚ)]) (fun _ => [[(3 : ℚ)]]) true true [()]
          true baseState).state, false, false⟩) ∧
    (({ baseState with radiation_values := some [5] } : SessionState).radiation_values =
        some [5] ∧
      runSimulation ([(1 : ℚ)], [(2 : ℚ)]) (fun _ => [[(3 : ℚ)]]) true true [()] true
          { baseState with radiation_values := some [5] } =
        ⟨{ baseState with radiation_values := some [5] }, false, false⟩) ∧
    (({ baseState with sky_matrix := some ([1], [2]) } : SessionState).sky_matrix =
        some ([1], [2]) ∧
      (runSimulation ([(1 : ℚ)], [(2 : ℚ)]) (fun _ => [[(3 : ℚ)]]) true true [()] true
          { baseState with sky_matrix := some ([1], [2]) }).skyComputed = false) ∧
    (({ baseState with intersection_matrix := some [[3]] } :
          SessionState).intersection_matrix = some [[3]] ∧
      (runSimulation ([(1 : ℚ)], [(2 : ℚ)]) (fun _ => [[(3 : ℚ)]]) true true [()] true
          { baseState with intersection_matrix := some [[3]] }).interComputed =
        false) :=
  ⟨c4_cache_reuse.1 _ _ _ _ _ _ baseState,
   ⟨rfl, c4_cache_reuse.2.1 _ _ _ _ _ _ _ [5] rfl⟩,
   ⟨rfl, (c4_cache_reuse.2.2.1 _ _ _ _ _ _ _ ([1], [2]) rfl).1⟩,
   ⟨rfl, (c4_cache_reuse.2.2.2 _ _ _ _ _ _ _ [[3]] rfl).1⟩⟩

/-- C5: a ground-reflectance change resets the cached sky matrix and
radiation values and stores the new reflectance, while the cached
intersection matrix survives; the next triggered run recomputes the sky
matrix, does not recompute the intersection matrix, and combines the
cached intersection matrix with the combined vector whose ground half is
the sky-patch mean times the new reflectance. -/
theorem c5_ground_reflectance_change (g : ℚ) (s : SessionState)
    (im : List (List ℚ)) (hne : g ≠ s.ground_reflectance)
    (him : s.intersection_matrix = some im) :
    (updateGroundReflectance g s).sky_matrix = none ∧
    (updateGroundReflectance g s).radiation_values = none ∧
    (updateGroundReflectance g s).intersection_matrix = some im ∧
    (updateGroundReflectance g s).ground_reflectance = g ∧
    (∀ cs ci cg trig, cg ≠ ([] : List Unit) → trig = true →
      (runSimulation cs ci true true cg trig
          (updateGroundReflectance g s)).skyComputed = true ∧
      (runSimulation cs ci true true cg trig
          (updateGroundReflectance g s)).interComputed = false ∧
      (runSimulation cs ci true true cg trig
            (updateGroundReflectance g s)).state.radiation_values =
        some (radiationCombine im (totalSkyRad cs ++
          List.replicate (totalSkyRad cs).length
            (groundValue (totalSkyRad cs) g)))) := by
  have hs' : updateGroundReflectance g s =
      { s with ground_reflectance := g, sky_matrix := none,
               radiation_values := none, vtk_path := none } := by
    rw [updateGroundReflectance, if_pos hne]
    rfl
  refine ⟨by rw [hs'], by rw [hs'], by rw [hs']; exact him, by rw [hs'], ?_⟩
  intro cs ci cg trig hcg htrig
  rw [hs']
  simp only [runSimulation]
  rw [if_neg (by simp [hcg])]
  rw [if_neg (by simp [htrig])]
  simp [skyStep, interStep, him, allRad]

/-- Witness for C5: changing the reflectance from one fifth to three
tenths with a cached one-entry intersection matrix. -/
theorem c5_ground_reflectance_change_witness :
    ((3 : ℚ) / 10 ≠
        ({ baseState with intersection_matrix := some [[(1 : ℚ)]] } :
          SessionState).ground_reflectance) ∧
    (updateGroundReflectance (3 / 10)
        { baseState with intersection_matrix := some [[(1 : ℚ)]] }).sky_matrix =
      none ∧
    ([()] : List Unit) ≠ [] ∧
    (runSimulation ([(1 : ℚ)], [(1 : ℚ)]) (fun _ => [[(9 : ℚ)]]) true true [()] true
        (updateGroundReflectance (3 / 10)
          { baseState with intersection_matrix := some [[(1 : ℚ)]] })).skyComputed =
      true :=
  ⟨by norm_num [baseState],
   (c5_ground_reflectance_change (3 / 10) _ [[(1 : ℚ)]]
       (by norm_num [baseState]) rfl).1,
   by simp,
   ((c5_ground_reflectance_change (3 / 10) _ [[(1 : ℚ)]]
         (by norm_num [baseState]) rfl).2.2.2.2 ([(1 : ℚ)], [(1 : ℚ)])
       (fun _ => [[(9 : ℚ)]]) [()] true (by simp) rfl).1⟩

/-- C6 counterexample: with a cached sky matrix, changing the north angle
from zero to ninety leaves the sky matrix cached, contradicting the claim
that a north change invalidates the cached sky vector. -/
theorem c6_counterexample :
    (updateNorth 90 { baseState with sky_matrix := some ([1], [2]) }).sky_matrix =
      some ([1], [2]) ∧
    (updateNorth 90 { baseState with sky_matrix := some ([1], [2]) }).sky_matrix ≠
      none := by
  have h : updateNorth 90 { baseState with sky_matrix := some ([1], [2]) } =
      { baseState with
          sky_matrix := some ([1], [2]), north := 90,
          intersection_matrix := none, radiation_values := none,
          vtk_path := none } := by
    rw [updateNorth, if_pos (by norm_num [baseState])]
  rw [h]
  exact ⟨rfl, by simp⟩

/-- C6 (amended): a change to the north angle invalidates the cached
intersection matrix, radiation values and visualization path and stores
the new angle, while the cached sky matrix is left untouched; the
rotation by the north angle is applied to the direction vectors of the
visibility engine, which rotates its dome vectors about the vertical axis
whenever the angle is nonzero. -/
theorem c6_north_change (n : ℚ) (s : SessionState) (hne : n ≠ s.north) :
    (updateNorth n s).sky_matrix = s.sky_matrix ∧
    (updateNorth n s).intersection_matrix = none ∧
    (updateNorth n s).radiation_values = none ∧
    (updateNorth n s).vtk_path = none ∧
    (updateNorth n s).north = n ∧
    (∀ (base : List Vec3) (m : ℝ), m ≠ 0 →
      simVectors base m = base.map (rotate_xy (radians m)) ++
        (base.map (rotate_xy (radians m))).map vecReverse) := by
  have h : updateNorth n s =
      { s with north := n, intersection_matrix := none,
               radiation_values := none, vtk_path := none } := by
    rw [updateNorth, if_pos hne]
  refine ⟨by rw [h], by rw [h], by rw [h], by rw [h], by rw [h], ?_⟩
  intro base m hm
  simp only [simVectors]
  rw [if_pos hm]

/-- Witness for C6 at a concrete state and a ninety-degree angle. -/
theorem c6_north_change_witness :
    ((90 : ℚ) ≠ ({ baseState with sky_matrix := some ([1], [2]) } :
        SessionState).north) ∧
    (updateNorth 90 { baseState with sky_matrix := some ([1], [2]) }).sky_matrix =
      ({ baseState with sky_matrix := some ([1], [2]) } :
        SessionState).sky_matrix ∧
    ((90 : ℝ) ≠ 0 ∧
      simVectors [((1 : ℝ), 0, 0)] 90 =
        [((1 : ℝ), 0, 0)].map (rotate_xy (radians 90)) ++
          ([((1 : ℝ), 0, 0)].map (rotate_xy (radians 90))).map vecReverse) :=
  ⟨by norm_num [baseState],
   (c6_north_change 90 _ (by norm_num [baseState])).1,
   by norm_num,
   (c6_north_change 90 { baseState with sky_matrix := some ([1], [2]) }
       (by norm_num [baseState])).2.2.2.2.2 [((1 : ℝ), 0, 0)] 90 (by norm_num)⟩

/-- C7 counterexample: with an empty context-geometry list and all other
required inputs present, the orchestrator returns immediately: the
visibility computation does not run and no radiation value is produced,
contradicting the claim that the computation still runs. -/
theorem c7_counterexample :
    runSimulation ([(1 : ℚ)], [(1 : ℚ)]) (fun _ => [[(1 : ℚ), 1]]) true true []
        true baseState =
      ⟨baseState, false, false⟩ ∧
    (runSimulation ([(1 : ℚ)], [(1 : ℚ)]) (fun _ => [[(1 : ℚ), 1]]) true true []
        true baseState).interComputed = false ∧
    (runSimulation ([(1 : ℚ)], [(1 : ℚ)]) (fun _ => [[(1 : ℚ), 1]]) true true []
        true baseState).state.radiation_values = none :=
  ⟨rfl, rfl, rfl⟩

/-- C7 (amended): with an empty context-geometry list the orchestrator
treats the context as a missing required input and returns with the state
unchanged and neither compute function called, for every state and every
choice of the other inputs. -/
theorem c7_empty_context (cs : List ℚ × List ℚ) (ci : Bool → List (List ℚ))
    (hSky hMesh : Bool) (trig : Bool) (s : SessionState) :
    runSimulation cs ci hSky hMesh [] trig s = ⟨s, false, false⟩ := by
  simp only [runSimulation]
  rw [if_pos (Or.inr (Or.inr (Or.inl trivial)))]

theorem simVectors_length (base : List Vec3) (north : ℝ) :
    (simVectors base north).length = 2 * base.length := by
  by_cases h : north ≠ 0 <;> simp [simVectors, h, two_mul]

/-- C8: the low-density patch table sums to 145 and the high-density one
to 577; a parsed sky-patch array at low density has 145 entries whenever
enough patch lines are supplied; the combined sky/ground vector has twice
the sky-patch length; the direction-vector list has twice the dome-vector
count; the intersection matrix has one row per sensor point and one
column per direction; the radiation result has one scalar per matrix row;
and the resolution of the intersection matrix is chosen to match the
cached sky vector, low exactly at length 145. -/
theorem c8_invariants :
    ((PATCHES_PER_ROW 1).sum = 145 ∧ (PATCHES_PER_ROW 2).sum = 577) ∧
    (∀ (coeff : ℕ → ℚ) (dur : ℚ) (lines : List (ℚ × ℚ × ℚ)),
      145 ≤ lines.length → (parse_mtx_data coeff dur 1 lines).length = 145) ∧
    (∀ (mtx : List ℚ × List ℚ) (refl : ℚ),
      (allRad mtx refl).length = 2 * (totalSkyRad mtx).length) ∧
    (∀ (base : List Vec3) (north : ℝ),
      (simVectors base north).length = 2 * base.length) ∧
    (∀ (w : ℕ → ℕ → ℚ) (numPts : ℕ) (base : List Vec3) (north : ℝ),
      (compute_intersection_matrix w numPts base north).length = numPts ∧
      ∀ row ∈ compute_intersection_matrix w numPts base north,
        row.length = 2 * base.length) ∧
    (∀ (M : List (List ℚ)) (S : List ℚ),
      (radiationCombine M S).length = M.length) ∧
    (highResFor 145 = false ∧ ∀ n : ℕ, n ≠ 145 → highResFor n = true) := by
  refine ⟨⟨by decide, by decide⟩, ?_, ?_, ?_, ?_, ?_, by decide, ?_⟩
  · intro coeff dur lines h
    have hsum : (PATCHES_PER_ROW 1).sum = 145 := by decide
    rw [parse_mtx_data, rowLoop_length _ _ _ _ _ (by rw [hsum]; exact h), hsum]
  · intro mtx refl
    simp [allRad, two_mul]
  · exact simVectors_length
  · intro w numPts base north
    constructor
    · simp [compute_intersection_matrix, rcontribMatrix]
    · intro row hrow
      simp only [compute_intersection_matrix, rcontribMatrix, List.mem_map] at hrow
      obtain ⟨i, hi, rfl⟩ := hrow
      simp [simVectors_length]
  · intro M S
    simp [radiationCombine]
  · intro n h
    simp [highResFor, h]

/-- Witness for C8: the parse-length invariant at a concrete list of 145
patch lines and the resolution choice at the concrete length 290. -/
theorem c8_invariants_witness :
    (145 ≤ (List.replicate 145 ((1 : ℚ), 1, 1)).length ∧
      (parse_mtx_data (fun _ => 1) 1 1
          (List.replicate 145 ((1 : ℚ), 1, 1))).length = 145) ∧
    ((290 : ℕ) ≠ 145 ∧ highResFor 290 = true) :=
  ⟨⟨by simp, c8_invariants.2.1 (fun _ => 1) 1 _ (by simp)⟩,
   ⟨by decide, c8_invariants.2.2.2.2.2.2.2 290 (by decide)⟩⟩

/-- C9: setting the north angle to 360 degrees produces the same
direction-vector list for the visibility engine as north 0 (the rotation
by 360 degrees about the vertical axis is the identity); the sky-matrix
computation takes no north input at all, so the sky vector is identical
as well. -/
theorem c9_north_360_noop (base : List Vec3) :
    simVectors base 360 = simVectors base 0 := by
  simp only [simVectors]
  rw [if_neg (by norm_num : ¬((0 : ℝ) ≠ 0)), if_pos (by norm_num : (360 : ℝ) ≠ 0)]
  have hmap : base.map (rotate_xy (radians 360)) = base :=
    calc base.map (rotate_xy (radians 360)) = base.map id :=
          List.map_congr_left fun v _ => rotate_xy_radians_360 v
      _ = base := List.map_id base
  rw [hmap]

/-- C10: a change to any of the four legend-only display inputs resets
the cached sky matrix, radiation values and visualization path to none,
even though the radiation values computed by a run are independent of
those four fields. -/
theorem c10_legend_inputs :
    (∀ (b : Bool) (s : SessionState), b ≠ s.override_min_max →
      (updateOverrideMinMax b s).sky_matrix = none ∧
      (updateOverrideMinMax b s).radiation_values = none ∧
      (updateOverrideMinMax b s).vtk_path = none) ∧
    (∀ (x : ℚ) (s : SessionState), x ≠ s.legend_min →
      (updateLegendMin x s).sky_matrix = none ∧
      (updateLegendMin x s).radiation_values = none ∧
      (updateLegendMin x s).vtk_path = none) ∧
    (∀ (x : ℚ) (s : SessionState), x ≠ s.legend_max →
      (updateLegendMax x s).sky_matrix = none ∧
      (updateLegendMax x s).radiation_values = none ∧
      (updateLegendMax x s).vtk_path = none) ∧
    (∀ (k : ℤ) (s : SessionState), k ≠ s.legend_seg_count →
      (updateLegendSegCount k s).sky_matrix = none ∧
      (updateLegendSegCount k s).radiation_values = none ∧
      (updateLegendSegCount k s).vtk_path = none) ∧
    (∀ cs ci hSky hMesh cg trig (s : SessionState) b x1 x2 k,
      (runSimulation cs ci hSky hMesh cg trig
          { s with
              override_min_max := b, legend_min := x1,
              legend_max := x2, legend_seg_count := k }).state.radiation_values =
        (runSimulation cs ci hSky hMesh cg trig s).state.radiation_values) := by
  refine ⟨?_, ?_, ?_, ?_, ?_⟩
  · intro b s h
    refine ⟨?_, ?_, ?_⟩ <;> simp [updateOverrideMinMax, new_sky_matrix, h]
  · intro x s h
    refine ⟨?_, ?_, ?_⟩ <;> simp [updateLegendMin, new_sky_matrix, h]
  · intro x s h
    refine ⟨?_, ?_, ?_⟩ <;> simp [updateLegendMax, new_sky_matrix, h]
  · intro k s h
    refine ⟨?_, ?_, ?_⟩ <;> simp [updateLegendSegCount, new_sky_matrix, h]
  · intro cs ci hSky hMesh cg trig s b x1 x2 k
    simp only [runSimulation]
    split_ifs <;> rfl

/-- Witness for C10: each of the four legend updaters applied at the
concrete base state with a differing value. -/
theorem c10_legend_inputs_witness :
    (true ≠ baseState.override_min_max ∧
      (updateOverrideMinMax true baseState).sky_matrix = none) ∧
    ((5 : ℚ) ≠ baseState.legend_min ∧
      (updateLegendMin 5 baseState).sky_matrix = none) ∧
    ((5 : ℚ) ≠ baseState.legend_max ∧
      (updateLegendMax 5 baseState).sky_matrix = none) ∧
    ((5 : ℤ) ≠ baseState.legend_seg_count ∧
      (updateLegendSegCount 5 baseState).sky_matrix = none) :=
  ⟨⟨by decide, (c10_legend_inputs.1 true baseState (by decide)).1⟩,
   ⟨by decide, (c10_legend_inputs.2.1 5 baseState (by decide)).1⟩,
   ⟨by decide, (c10_legend_inputs.2.2.1 5 baseState (by decide)).1⟩,
   ⟨by decide, (c10_legend_inputs.2.2.2.1 5 baseState (by decide)).1⟩⟩

end IncidentRad
